import Mathlib

/-!
Verification development for the opencode-tps-meter plugin.

The rate-estimation core (src/tracker.ts, the EWMA variant), the display
coordinator (src/ui.ts) and the event-routing plugin (src/index.ts) are
shallowly embedded below.  JavaScript numbers are modelled as rationals
(all the claims under study are independent of float rounding); the one
transcendental, Math.exp in the EWMA update, is modelled with Real.exp, so
the smoothed rate lives in the reals while every other component stays
computable.  Timestamps (Date.now()) are passed as explicit parameters.
-/

/-! ### Constants (src/constants.ts) -/

def MIN_TPS_ELAPSED_MS : ℚ := 250

def DEFAULT_ROLLING_WINDOW_MS : ℚ := 1000

def MAX_BUFFER_SIZE : Nat := 100

def MIN_WINDOW_DURATION_SECONDS : ℚ := 1/10

def BURST_TOKEN_THRESHOLD : ℚ := 50

def DEFAULT_EWMA_HALF_LIFE_MS : ℚ := 500

def BURST_EWMA_HALF_LIFE_MS : ℚ := 3000

def LARGE_BURST_THRESHOLD : ℚ := 200

def LARGE_BURST_EWMA_HALF_LIFE_MS : ℚ := 5000

def MIN_TOAST_INTERVAL_MS : ℚ := 150

def MAX_MESSAGE_AGE_MS : ℚ := 5 * 60 * 1000

def CLEANUP_INTERVAL_MS : ℚ := 30000

/-! ### Rate estimator (src/tracker.ts, createTracker) -/

/-- One recorded event in the ring buffer (types.ts BufferEntry). -/
structure BufferEntry where
  timestamp : ℚ
  count : ℚ
deriving DecidableEq, Repr

/-- The closure state of a createTracker instance. -/
structure TrackerState where
  startTime : ℚ
  totalTokens : ℚ
  buffer : List BufferEntry
  windowMs : ℚ
  smoothedTps : ℝ
  lastSmoothedAt : ℚ
  hasSmoothedValue : Bool

/-- createTracker: initial closure state.  windowMs falls back to the
default unless options.rollingWindowMs is a positive number. -/
noncomputable def createTracker (rollingWindowMs : Option ℚ) (now : ℚ) : TrackerState :=
  { startTime := now
    totalTokens := 0
    buffer := []
    windowMs :=
      match rollingWindowMs with
      | some w => if 0 < w then w else DEFAULT_ROLLING_WINDOW_MS
      | none => DEFAULT_ROLLING_WINDOW_MS
    smoothedTps := 0
    lastSmoothedAt := 0
    hasSmoothedValue := false }

/-- pruneBuffer: drop entries older than the window (everything before the
first index whose timestamp is at least the cutoff; clear if none), then
trim from the front to MAX_BUFFER_SIZE. -/
def pruneBuffer (buffer : List BufferEntry) (now windowMs : ℚ) : List BufferEntry :=
  let cutoff := now - windowMs
  let afterExpiry :=
    match buffer.findIdx? (fun e => decide (cutoff ≤ e.timestamp)) with
    | none => []
    | some i => buffer.drop i
  if MAX_BUFFER_SIZE < afterExpiry.length then
    afterExpiry.drop (afterExpiry.length - MAX_BUFFER_SIZE)
  else afterExpiry

/-- calculateRawTPS: sum the counts of in-window entries, divide by the
span between oldest and newest such entry (oldest accumulates from now,
newest from 0, as in the source loop), floored at the minimum duration. -/
def calculateRawTPS (buffer : List BufferEntry) (now windowMs : ℚ) : ℚ :=
  if buffer = [] then 0
  else
    let cutoff := now - windowMs
    let inWindow := buffer.filter (fun e => decide (cutoff ≤ e.timestamp))
    let tokensInWindow := (inWindow.map BufferEntry.count).sum
    let oldestTimestamp := inWindow.foldl (fun acc e => min acc e.timestamp) now
    let newestTimestamp := inWindow.foldl (fun acc e => max acc e.timestamp) 0
    if tokensInWindow = 0 then 0
    else
      let windowDurationSeconds := (newestTimestamp - oldestTimestamp) / 1000
      let effectiveDuration := max windowDurationSeconds MIN_WINDOW_DURATION_SECONDS
      tokensInWindow / effectiveDuration

/-- The half-life chosen on a post-bootstrap recordTokens call (the
conditional at tracker.ts recordTokens): the burst half-life when the
just-recorded count exceeds the burst threshold, the default otherwise. -/
def selectHalfLife (count : ℚ) : ℚ :=
  if BURST_TOKEN_THRESHOLD < count then BURST_EWMA_HALF_LIFE_MS
  else DEFAULT_EWMA_HALF_LIFE_MS

/-- alpha = exp(-LN2 * timeDelta / halfLife). -/
noncomputable def alphaOf (timeDelta halfLife : ℚ) : ℝ :=
  Real.exp (-(Real.log 2) * (timeDelta : ℝ) / (halfLife : ℝ))

/-- The raw instantaneous TPS recomputed inside recordTokens, after the
push and the prune at the call timestamp. -/
def rawAfterRecord (s : TrackerState) (count ts : ℚ) : ℚ :=
  calculateRawTPS (pruneBuffer (s.buffer ++ [⟨ts, count⟩]) ts s.windowMs) ts s.windowMs

/-- recordTokens: add to the running total, push a buffer entry, prune,
then refresh the EWMA (bootstrap on the first ever call). -/
noncomputable def recordTokens (s : TrackerState) (count ts : ℚ) : TrackerState :=
  let buffer2 := pruneBuffer (s.buffer ++ [⟨ts, count⟩]) ts s.windowMs
  let rawTPS := calculateRawTPS buffer2 ts s.windowMs
  if s.hasSmoothedValue then
    let timeDelta := max 1 (ts - s.lastSmoothedAt)
    let halfLife := selectHalfLife count
    let alpha := alphaOf timeDelta halfLife
    { s with totalTokens := s.totalTokens + count
             buffer := buffer2
             smoothedTps := alpha * s.smoothedTps + (1 - alpha) * (rawTPS : ℝ)
             lastSmoothedAt := ts }
  else
    { s with totalTokens := s.totalTokens + count
             buffer := buffer2
             smoothedTps := (rawTPS : ℝ)
             hasSmoothedValue := true
             lastSmoothedAt := ts }

/-- getTotalTokens accessor. -/
def getTotalTokens (s : TrackerState) : ℚ := s.totalTokens

/-- getBufferSize accessor. -/
def getBufferSize (s : TrackerState) : Nat := s.buffer.length

/-- getMaxBufferSize accessor. -/
def getMaxBufferSize (_s : TrackerState) : Nat := MAX_BUFFER_SIZE

/-- getInstantTPS accessor. -/
def getInstantTPS (s : TrackerState) (now : ℚ) : ℚ :=
  calculateRawTPS s.buffer now s.windowMs

/-- getSmoothedTPS accessor. -/
noncomputable def getSmoothedTPS (s : TrackerState) (now : ℚ) : ℝ :=
  if s.hasSmoothedValue then s.smoothedTps
  else (calculateRawTPS s.buffer now s.windowMs : ℝ)

/-- reset: clears buffer, totals and smoothing state; keeps windowMs. -/
def resetTracker (s : TrackerState) (now : ℚ) : TrackerState :=
  { startTime := now
    totalTokens := 0
    buffer := []
    windowMs := s.windowMs
    smoothedTps := 0
    lastSmoothedAt := 0
    hasSmoothedValue := false }

/-- A tracker operation that can mutate tracker state (the accessors do
not mutate and are omitted from the operation alphabet). -/
inductive TrackerOp where
  | record (count ts : ℚ)
  | reset (now : ℚ)

/-- Apply one operation of the tracker interface. -/
noncomputable def applyOp (s : TrackerState) : TrackerOp → TrackerState
  | .record c t => recordTokens s c t
  | .reset now => resetTracker s now

/-- Apply a sequence of tracker operations in order. -/
noncomputable def applyOps (s : TrackerState) (ops : List TrackerOp) : TrackerState :=
  ops.foldl applyOp s

/-! ### Basic tracker lemmas -/

theorem recordTokens_totalTokens (s : TrackerState) (c t : ℚ) :
    (recordTokens s c t).totalTokens = s.totalTokens + c := by
  cases hs : s.hasSmoothedValue <;> simp [recordTokens, hs]

theorem trimToMax_length_le (l : List BufferEntry) :
    (if MAX_BUFFER_SIZE < l.length then l.drop (l.length - MAX_BUFFER_SIZE) else l).length
      ≤ MAX_BUFFER_SIZE := by
  split <;> simp [MAX_BUFFER_SIZE] at * <;> omega

theorem pruneBuffer_length_le (b : List BufferEntry) (now w : ℚ) :
    (pruneBuffer b now w).length ≤ MAX_BUFFER_SIZE :=
  trimToMax_length_le _

theorem recordTokens_buffer (s : TrackerState) (c t : ℚ) :
    (recordTokens s c t).buffer = pruneBuffer (s.buffer ++ [⟨t, c⟩]) t s.windowMs := by
  cases hs : s.hasSmoothedValue <;> simp [recordTokens, hs]

/-! ### C1: exact total under any recording sequence -/

theorem foldl_recordTokens_total (calls : List (ℚ × ℚ)) :
    ∀ s : TrackerState,
      (calls.foldl (fun acc c => recordTokens acc c.1 c.2) s).totalTokens
        = s.totalTokens + (calls.map Prod.fst).sum := by
  induction calls with
  | nil => intro s; simp
  | cons c rest ih =>
      intro s
      simp only [List.foldl_cons, List.map_cons, List.sum_cons]
      rw [ih, recordTokens_totalTokens]
      ring

/-- C1: for every sequence of recordTokens calls with non-decreasing
timestamps, getTotalTokens afterwards equals the exact sum of the
recorded counts, independent of buffer pruning and trimming. -/
theorem spec_c1_total_exact (calls : List (ℚ × ℚ))
    (h : calls.Chain' (fun a b => a.2 ≤ b.2)) :
    getTotalTokens
      (calls.foldl (fun acc c => recordTokens acc c.1 c.2) (createTracker none 0))
      = (calls.map Prod.fst).sum := by
  unfold getTotalTokens
  rw [foldl_recordTokens_total]
  simp [createTracker]

/-- Witness for C1 at the concrete call sequence (5 @ t=0), (7 @ t=100). -/
theorem spec_c1_total_exact_witness :
    List.Chain' (fun a b : ℚ × ℚ => a.2 ≤ b.2) [(5, 0), (7, 100)] ∧
      getTotalTokens
        ([((5 : ℚ), (0 : ℚ)), (7, 100)].foldl
          (fun acc c => recordTokens acc c.1 c.2) (createTracker none 0))
        = ([((5 : ℚ), (0 : ℚ)), (7, 100)].map Prod.fst).sum :=
  ⟨by norm_num [List.chain'_cons], spec_c1_total_exact [(5, 0), (7, 100)]
    (by norm_num [List.chain'_cons])⟩

/-! ### C2: the ring buffer never exceeds 100 entries -/

theorem applyOp_buffer_le (s : TrackerState) (op : TrackerOp)
    (hs : s.buffer.length ≤ MAX_BUFFER_SIZE) :
    (applyOp s op).buffer.length ≤ MAX_BUFFER_SIZE := by
  cases op with
  | record c t =>
      show (recordTokens s c t).buffer.length ≤ MAX_BUFFER_SIZE
      rw [recordTokens_buffer]
      exact pruneBuffer_length_le _ _ _
  | reset now => simp [applyOp, resetTracker, MAX_BUFFER_SIZE]

/-- C2: after any sequence of tracker operations from a fresh tracker,
getBufferSize is at most the maximum buffer size (100). -/
theorem spec_c2_buffer_bound (rollingWindowMs : Option ℚ) (t0 : ℚ)
    (ops : List TrackerOp) :
    getBufferSize (applyOps (createTracker rollingWindowMs t0) ops) ≤ MAX_BUFFER_SIZE := by
  unfold getBufferSize applyOps
  have hinit : (createTracker rollingWindowMs t0).buffer.length ≤ MAX_BUFFER_SIZE := by
    simp [createTracker, MAX_BUFFER_SIZE]
  generalize createTracker rollingWindowMs t0 = s at hinit ⊢
  induction ops generalizing s with
  | nil => exact hinit
  | cons op rest ih =>
      simp only [List.foldl_cons]
      exact ih _ (applyOp_buffer_le s op hinit)

/-! ### C3: burst half-life selection has two tiers, not three -/

/-- C3 counterexample: a count of 250 exceeds the large-burst threshold
(200) yet receives exactly the medium-burst half-life (3000 ms) — the same
half-life as a count of 100 — and not the strictly longer large-burst
half-life (5000 ms).  So the selection has two tiers, not three. -/
theorem spec_c3_counterexample :
    LARGE_BURST_THRESHOLD < (250 : ℚ) ∧
      selectHalfLife 250 = BURST_EWMA_HALF_LIFE_MS ∧
      selectHalfLife 250 = selectHalfLife 100 ∧
      BURST_EWMA_HALF_LIFE_MS < LARGE_BURST_EWMA_HALF_LIFE_MS := by
  norm_num [selectHalfLife, BURST_TOKEN_THRESHOLD, LARGE_BURST_THRESHOLD,
    BURST_EWMA_HALF_LIFE_MS, LARGE_BURST_EWMA_HALF_LIFE_MS]

/-- C3 amended: the EWMA half-life used by recordTokens is chosen in two
tiers: the default half-life for counts up to the burst threshold (50) and
the burst half-life for all larger counts — including counts above the
large-burst threshold (200), which get no longer-still half-life. -/
theorem spec_c3_amended :
    (∀ c : ℚ, c ≤ BURST_TOKEN_THRESHOLD → selectHalfLife c = DEFAULT_EWMA_HALF_LIFE_MS) ∧
      (∀ c : ℚ, BURST_TOKEN_THRESHOLD < c → selectHalfLife c = BURST_EWMA_HALF_LIFE_MS) ∧
      (∀ c : ℚ, LARGE_BURST_THRESHOLD < c → selectHalfLife c = BURST_EWMA_HALF_LIFE_MS) := by
  refine ⟨fun c hc => ?_, fun c hc => ?_, fun c hc => ?_⟩
  · unfold selectHalfLife
    rw [if_neg (not_lt.mpr hc)]
  · unfold selectHalfLife
    rw [if_pos hc]
  · unfold selectHalfLife
    have hc2 : BURST_TOKEN_THRESHOLD < c := by
      have h50 : BURST_TOKEN_THRESHOLD < LARGE_BURST_THRESHOLD := by
        norm_num [BURST_TOKEN_THRESHOLD, LARGE_BURST_THRESHOLD]
      linarith
    rw [if_pos hc2]

/-- Witness for the amended C3 at counts 50, 51 and 201. -/
theorem spec_c3_amended_witness :
    ((50 : ℚ) ≤ BURST_TOKEN_THRESHOLD ∧ selectHalfLife 50 = DEFAULT_EWMA_HALF_LIFE_MS) ∧
      (BURST_TOKEN_THRESHOLD < (51 : ℚ) ∧ selectHalfLife 51 = BURST_EWMA_HALF_LIFE_MS) ∧
      (LARGE_BURST_THRESHOLD < (201 : ℚ) ∧ selectHalfLife 201 = BURST_EWMA_HALF_LIFE_MS) :=
  ⟨⟨by norm_num [BURST_TOKEN_THRESHOLD],
      spec_c3_amended.1 50 (by norm_num [BURST_TOKEN_THRESHOLD])⟩,
    ⟨by norm_num [BURST_TOKEN_THRESHOLD],
      spec_c3_amended.2.1 51 (by norm_num [BURST_TOKEN_THRESHOLD])⟩,
    ⟨by norm_num [LARGE_BURST_THRESHOLD],
      spec_c3_amended.2.2 201 (by norm_num [LARGE_BURST_THRESHOLD])⟩⟩

/-! ### C9: negative counts are accumulated literally, not clamped -/

/-- C9 counterexample: recording 5 tokens and then −3 tokens leaves the
total at 2, strictly below the 5 held before the negative call; so
getTotalTokens does decrease and no clamping to zero happens. -/
theorem spec_c9_counterexample :
    getTotalTokens (recordTokens (recordTokens (createTracker none 0) 5 0) (-3) 1)
      < getTotalTokens (recordTokens (createTracker none 0) 5 0) := by
  simp [getTotalTokens, recordTokens_totalTokens, createTracker]

/-- C9 amended: a recordTokens call with a negative count raises no
exception (the embedding is a total function) but adds the count
literally, so getTotalTokens strictly decreases by its magnitude. -/
theorem spec_c9_amended (s : TrackerState) (c t : ℚ) (hc : c < 0) :
    getTotalTokens (recordTokens s c t) = getTotalTokens s + c ∧
      getTotalTokens (recordTokens s c t) < getTotalTokens s := by
  refine ⟨recordTokens_totalTokens s c t, ?_⟩
  rw [getTotalTokens, getTotalTokens, recordTokens_totalTokens]
  linarith

/-- Witness for the amended C9 with count −3 on a fresh tracker. -/
theorem spec_c9_amended_witness :
    ((-3 : ℚ) < 0) ∧
      (getTotalTokens (recordTokens (createTracker none 0) (-3) 7)
          = getTotalTokens (createTracker none 0) + (-3) ∧
        getTotalTokens (recordTokens (createTracker none 0) (-3) 7)
          < getTotalTokens (createTracker none 0)) :=
  ⟨by norm_num, spec_c9_amended (createTracker none 0) (-3) 7 (by norm_num)⟩

/-! ### C4: burst smoothing versus the raw rate -/

theorem recordTokens_smoothed (s : TrackerState) (c t : ℚ) (hs : s.hasSmoothedValue = true) :
    (recordTokens s c t).smoothedTps
      = alphaOf (max 1 (t - s.lastSmoothedAt)) (selectHalfLife c) * s.smoothedTps
        + (1 - alphaOf (max 1 (t - s.lastSmoothedAt)) (selectHalfLife c))
            * (rawAfterRecord s c t : ℝ) := by
  simp [recordTokens, rawAfterRecord, hs]

theorem alphaOf_pos (dt hl : ℚ) : 0 < alphaOf dt hl := Real.exp_pos _

/-- C4 amended: given a prior smoothed value that sits strictly below the
raw rate computed at the burst call, a recordTokens call whose count
exceeds the burst threshold stores a smoothed rate strictly below that raw
rate.  (The extra lower-bound hypothesis is forced by the counterexample:
when the prior smoothed value is above the raw rate the update lands
strictly above it instead.) -/
theorem spec_c4_amended (s : TrackerState) (count ts : ℚ)
    (hs : s.hasSmoothedValue = true)
    (hburst : BURST_TOKEN_THRESHOLD < count)
    (hlt : s.smoothedTps < (rawAfterRecord s count ts : ℝ)) :
    (recordTokens s count ts).smoothedTps < (rawAfterRecord s count ts : ℝ) := by
  rw [recordTokens_smoothed s count ts hs]
  have ha := alphaOf_pos (max 1 (ts - s.lastSmoothedAt)) (selectHalfLife count)
  nlinarith [mul_lt_mul_of_pos_left hlt ha]

/-- A concrete tracker state that already holds a smoothed value of 0. -/
noncomputable def c4PriorState : TrackerState :=
  { startTime := 0, totalTokens := 0, buffer := [], windowMs := 1000,
    smoothedTps := 0, lastSmoothedAt := 0, hasSmoothedValue := true }

/-- Witness for the amended C4: prior smoothed value 0, burst count 51 at
t = 5 with raw rate 510. -/
theorem spec_c4_amended_witness :
    c4PriorState.hasSmoothedValue = true ∧
      BURST_TOKEN_THRESHOLD < (51 : ℚ) ∧
      c4PriorState.smoothedTps < (rawAfterRecord c4PriorState 51 5 : ℝ) ∧
      (recordTokens c4PriorState 51 5).smoothedTps
        < (rawAfterRecord c4PriorState 51 5 : ℝ) := by
  have hraw : rawAfterRecord c4PriorState 51 5 = 510 := by
    norm_num [rawAfterRecord, c4PriorState, pruneBuffer, calculateRawTPS, List.findIdx?_cons,
      MAX_BUFFER_SIZE, MIN_WINDOW_DURATION_SECONDS, min_def, max_def]
  have h1 : c4PriorState.hasSmoothedValue = true := rfl
  have h2 : BURST_TOKEN_THRESHOLD < (51 : ℚ) := by norm_num [BURST_TOKEN_THRESHOLD]
  have h3 : c4PriorState.smoothedTps < (rawAfterRecord c4PriorState 51 5 : ℝ) := by
    rw [hraw]
    show (0 : ℝ) < ((510 : ℚ) : ℝ)
    norm_num
  exact ⟨h1, h2, h3, spec_c4_amended c4PriorState 51 5 h1 h2 h3⟩

/-- The tracker after bootstrapping with a 1000-token burst at t = 0: its
smoothed rate is 10000 tokens/s. -/
noncomputable def c4BootState : TrackerState := recordTokens (createTracker none 0) 1000 0

/-- C4 counterexample: the tracker holds a smoothed value (10000), then a
burst of 51 > 50 tokens arrives at t = 100000 whose raw rate is only 510;
the stored smoothed rate ends up strictly ABOVE the raw rate, refuting the
claim that it is always strictly below it. -/
theorem spec_c4_counterexample :
    c4BootState.hasSmoothedValue = true ∧
      BURST_TOKEN_THRESHOLD < (51 : ℚ) ∧
      (rawAfterRecord c4BootState 51 100000 : ℝ)
        < (recordTokens c4BootState 51 100000).smoothedTps := by
  have hfields : c4BootState
      = { startTime := 0, totalTokens := 1000, buffer := [⟨0, 1000⟩], windowMs := 1000,
          smoothedTps := ((10000 : ℚ) : ℝ), lastSmoothedAt := 0, hasSmoothedValue := true } := by
    norm_num [c4BootState, recordTokens, createTracker, pruneBuffer, calculateRawTPS,
      List.findIdx?_cons, MAX_BUFFER_SIZE, MIN_WINDOW_DURATION_SECONDS,
      DEFAULT_ROLLING_WINDOW_MS, min_def, max_def, TrackerState.mk.injEq]
  have hraw : rawAfterRecord c4BootState 51 100000 = 510 := by
    rw [hfields]
    norm_num [rawAfterRecord, pruneBuffer, calculateRawTPS, List.findIdx?_cons,
      MAX_BUFFER_SIZE, MIN_WINDOW_DURATION_SECONDS, min_def, max_def]
  have h1 : c4BootState.hasSmoothedValue = true := by rw [hfields]
  refine ⟨h1, by norm_num [BURST_TOKEN_THRESHOLD], ?_⟩
  rw [recordTokens_smoothed c4BootState 51 100000 h1, hraw]
  have ha := alphaOf_pos (max 1 ((100000 : ℚ) - c4BootState.lastSmoothedAt)) (selectHalfLife 51)
  have hsm : c4BootState.smoothedTps = ((10000 : ℚ) : ℝ) := by rw [hfields]
  rw [hsm]
  push_cast
  nlinarith [ha]

/-! ### Display coordinator (src/ui.ts, createUIManager) -/

/-- The display-relevant closure state of createUIManager: the configured
throttle interval and the "last shown" bookkeeping (updated only on a
successful sink dispatch).  The flush-timer fields drive real-time
scheduling and play no part in the claims below. -/
structure UIState where
  updateIntervalMs : ℚ
  lastToastAt : ℚ
  lastToastMessage : String
deriving DecidableEq

/-- Behaviour of one notification sink on this flush: not installed on the
client object, throwing synchronously, or succeeding. -/
inductive SinkBehavior where
  | absent
  | raises
  | succeeds
deriving DecidableEq

/-- The three sinks of the fallback chain, in dispatch order:
client.tui.showToast, client.tui.publish, and the client.toast
info/success pair (present only when both methods exist). -/
structure Sinks where
  showToast : SinkBehavior
  publish : SinkBehavior
  toastNotify : SinkBehavior
deriving DecidableEq

/-- A sink invocation: none when the sink is absent (the guard fails and
the block is skipped), an error when the call throws, ok when it returns. -/
def sinkCall : SinkBehavior → Option (Except Unit Unit)
  | .absent => none
  | .raises => some (.error ())
  | .succeeds => some (.ok ())

/-- One guarded try/catch block of display(): skipped entirely once a
previous sink succeeded; a throw is caught locally and falls through. The
accumulator carries the displayed flag and the indices attempted so far. -/
def attemptSink (b : SinkBehavior) (i : Nat) (acc : Bool × List Nat) : Bool × List Nat :=
  if acc.1 then acc
  else
    match sinkCall b with
    | none => acc
    | some (.error _) => (false, acc.2 ++ [i])
    | some (.ok _) => (true, acc.2 ++ [i])

/-- display(): the secondary flood guard (duplicate text, or less than
max(MIN_TOAST_INTERVAL_MS, 3 x updateIntervalMs) since the last successful
emission) suppresses non-final emissions; otherwise the sink chain runs
and the last-shown bookkeeping updates only if some sink succeeded.  The
function is total: a throwing sink is caught inside its attempt, so no
error ever reaches the caller. -/
def display (ui : UIState) (sinks : Sinks) (message : String) (isFinal : Bool) (now : ℚ) :
    UIState × List Nat × Bool :=
  let minToastIntervalMs := max MIN_TOAST_INTERVAL_MS (ui.updateIntervalMs * 3)
  if isFinal = false ∧ (message = ui.lastToastMessage ∨ now - ui.lastToastAt < minToastIntervalMs) then
    (ui, [], false)
  else
    let acc1 := attemptSink sinks.showToast 1 (false, [])
    let acc2 := attemptSink sinks.publish 2 acc1
    let acc3 := attemptSink sinks.toastNotify 3 acc2
    if acc3.1 then
      ({ ui with lastToastAt := now, lastToastMessage := message }, acc3.2, true)
    else
      (ui, acc3.2, false)

/-- The index list contributed by one non-succeeding sink: attempted iff
it is installed. -/
def attemptIf (b : SinkBehavior) (i : Nat) : List Nat :=
  if b = .absent then [] else [i]

/-- C7: a non-final emission whose text equals the last successfully shown
text, or which arrives less than max(150 ms, 3 x updateIntervalMs) after
the last successful emission, is suppressed: no sink is attempted and no
bookkeeping changes.  Final-stats emissions are exempt: their outcome is
independent of the last-shown text and timestamp. -/
theorem spec_c7_flood_guard :
    (∀ (ui : UIState) (sinks : Sinks) (message : String) (now : ℚ),
      (message = ui.lastToastMessage ∨
          now - ui.lastToastAt < max MIN_TOAST_INTERVAL_MS (ui.updateIntervalMs * 3)) →
        display ui sinks message false now = (ui, [], false)) ∧
      (∀ (ui ui2 : UIState) (sinks : Sinks) (message : String) (now : ℚ),
        ui.updateIntervalMs = ui2.updateIntervalMs →
          (display ui sinks message true now).2 = (display ui2 sinks message true now).2) := by
  constructor
  · intro ui sinks message now h
    unfold display
    rw [if_pos ⟨rfl, h⟩]
  · intro ui ui2 sinks message now h
    have e : ∀ u : UIState, display u sinks message true now
        = (if (attemptSink sinks.toastNotify 3 (attemptSink sinks.publish 2
                (attemptSink sinks.showToast 1 (false, [])))).1
           then ({ u with lastToastAt := now, lastToastMessage := message },
                 (attemptSink sinks.toastNotify 3 (attemptSink sinks.publish 2
                   (attemptSink sinks.showToast 1 (false, [])))).2, true)
           else (u, (attemptSink sinks.toastNotify 3 (attemptSink sinks.publish 2
                 (attemptSink sinks.showToast 1 (false, [])))).2, false)) := by
      intro u
      unfold display
      rw [if_neg (fun hc => absurd hc.1 (by simp))]
    rw [e ui, e ui2]
    split <;> rfl

/-- Witness for C7: a duplicate non-final message is dropped, and a final
message's dispatch ignores the bookkeeping fields. -/
theorem spec_c7_flood_guard_witness :
    (("x" = (UIState.mk 50 1000 "x").lastToastMessage ∨
        (2000 : ℚ) - (UIState.mk 50 1000 "x").lastToastAt
          < max MIN_TOAST_INTERVAL_MS ((UIState.mk 50 1000 "x").updateIntervalMs * 3)) ∧
      display (UIState.mk 50 1000 "x") (Sinks.mk .succeeds .succeeds .succeeds) "x" false 2000
        = (UIState.mk 50 1000 "x", [], false)) ∧
      ((UIState.mk 50 1000 "x").updateIntervalMs = (UIState.mk 50 9 "y").updateIntervalMs ∧
        (display (UIState.mk 50 1000 "x") (Sinks.mk .succeeds .succeeds .succeeds) "x" true 2000).2
          = (display (UIState.mk 50 9 "y") (Sinks.mk .succeeds .succeeds .succeeds) "x" true 2000).2) :=
  ⟨⟨Or.inl rfl,
      spec_c7_flood_guard.1 (UIState.mk 50 1000 "x") (Sinks.mk .succeeds .succeeds .succeeds)
        "x" 2000 (Or.inl rfl)⟩,
    ⟨rfl,
      spec_c7_flood_guard.2 (UIState.mk 50 1000 "x") (UIState.mk 50 9 "y")
        (Sinks.mk .succeeds .succeeds .succeeds) "x" 2000 rfl⟩⟩

/-- C8: on a non-suppressed flush the sinks are attempted in order
showToast, publish, toast-info/success; the first sink that does not throw
ends the chain; the last-shown message and timestamp update exactly when
some sink succeeds; and when every installed sink throws, the flush is
dropped with the state unchanged and a normal return (the embedding of
display is a total function: every throw is caught inside its attempt). -/
theorem spec_c8_sink_chain (ui : UIState) (sinks : Sinks) (message : String)
    (isFinal : Bool) (now : ℚ)
    (hns : ¬(message = ui.lastToastMessage ∨
        now - ui.lastToastAt < max MIN_TOAST_INTERVAL_MS (ui.updateIntervalMs * 3))) :
    (sinks.showToast = .succeeds →
        display ui sinks message isFinal now
          = ({ ui with lastToastAt := now, lastToastMessage := message }, [1], true)) ∧
      (sinks.showToast ≠ .succeeds → sinks.publish = .succeeds →
        display ui sinks message isFinal now
          = ({ ui with lastToastAt := now, lastToastMessage := message },
              attemptIf sinks.showToast 1 ++ [2], true)) ∧
      (sinks.showToast ≠ .succeeds → sinks.publish ≠ .succeeds → sinks.toastNotify = .succeeds →
        display ui sinks message isFinal now
          = ({ ui with lastToastAt := now, lastToastMessage := message },
              attemptIf sinks.showToast 1 ++ attemptIf sinks.publish 2 ++ [3], true)) ∧
      (sinks.showToast ≠ .succeeds → sinks.publish ≠ .succeeds → sinks.toastNotify ≠ .succeeds →
        display ui sinks message isFinal now
          = (ui, attemptIf sinks.showToast 1 ++ attemptIf sinks.publish 2
              ++ attemptIf sinks.toastNotify 3, false)) := by
  have hcond : ¬(isFinal = false ∧ (message = ui.lastToastMessage ∨
      now - ui.lastToastAt < max MIN_TOAST_INTERVAL_MS (ui.updateIntervalMs * 3))) :=
    fun h => hns h.2
  refine ⟨?_, ?_, ?_, ?_⟩
  · intro h1
    unfold display
    rw [if_neg hcond]
    simp [attemptSink, sinkCall, h1]
  · intro h1 h2
    unfold display
    rw [if_neg hcond]
    cases hst : sinks.showToast <;> simp_all [attemptSink, sinkCall, attemptIf]
  · intro h1 h2 h3
    unfold display
    rw [if_neg hcond]
    cases hst : sinks.showToast <;> cases hpu : sinks.publish <;>
      simp_all [attemptSink, sinkCall, attemptIf]
  · intro h1 h2 h3
    unfold display
    rw [if_neg hcond]
    cases hst : sinks.showToast <;> cases hpu : sinks.publish <;>
        cases htn : sinks.toastNotify <;>
      simp_all [attemptSink, sinkCall, attemptIf]

/-- Witness for C8: with showToast throwing, publish succeeding and the
toast pair absent, a non-suppressed flush attempts sinks 1 then 2 and
updates the bookkeeping. -/
theorem spec_c8_sink_chain_witness :
    (¬(("msg" : String) = (UIState.mk 50 0 "prev").lastToastMessage ∨
        (1000 : ℚ) - (UIState.mk 50 0 "prev").lastToastAt
          < max MIN_TOAST_INTERVAL_MS ((UIState.mk 50 0 "prev").updateIntervalMs * 3))) ∧
      display (UIState.mk 50 0 "prev") (Sinks.mk .raises .succeeds .absent) "msg" false 1000
        = (UIState.mk 50 1000 "msg", [1, 2], true) := by
  have hns : ¬(("msg" : String) = (UIState.mk 50 0 "prev").lastToastMessage ∨
      (1000 : ℚ) - (UIState.mk 50 0 "prev").lastToastAt
        < max MIN_TOAST_INTERVAL_MS ((UIState.mk 50 0 "prev").updateIntervalMs * 3)) := by
    rintro (hc | hc)
    · exact absurd hc (by decide)
    · norm_num [MIN_TOAST_INTERVAL_MS, max_def] at hc
  have h := (spec_c8_sink_chain (UIState.mk 50 0 "prev") (Sinks.mk .raises .succeeds .absent)
      "msg" false 1000 hns).2.1 (by decide) rfl
  refine ⟨hns, ?_⟩
  simpa [attemptIf] using h

/-! ### Event-routing plugin (src/index.ts, TpsMeterPlugin)

JavaScript Maps become association lists preserving insertion order;
`Date.now()` becomes an explicit event timestamp; JS truthiness of the
relevant value shapes is modelled by the jsTruthy* helpers.  The token
counter is an external collaborator (the spec scopes the counting
heuristics out); handlers take it as the `tok` field of the config.  The
mutation `messageTracker.x = v` on an object that the stale-message sweep
may meanwhile have unlinked from the map is modelled by writing the final
tracker back only when its key is still present. -/

/-- Message role as cached from message.updated events. -/
inductive Role where
  | user
  | assistant
  | system
deriving DecidableEq, Repr

/-- A runtime agent value: index.ts types it AgentIdentity but
handleMessageUpdated also probes for plain strings, so both shapes are
modelled.  An object is always truthy; a string is truthy iff non-empty. -/
inductive AgentVal where
  | str (s : String)
  | obj (id type name : Option String)
deriving DecidableEq, Repr

def AgentVal.truthy : AgentVal → Bool
  | .str s => !(s == "")
  | .obj _ _ _ => true

def AgentVal.idField : AgentVal → Option String
  | .str _ => none
  | .obj i _ _ => i

def AgentVal.typeField : AgentVal → Option String
  | .str _ => none
  | .obj _ t _ => t

def AgentVal.nameField : AgentVal → Option String
  | .str _ => none
  | .obj _ _ n => n

def jsTruthyStr : Option String → Bool
  | none => false
  | some s => !(s == "")

def jsTruthyAgent : Option AgentVal → Bool
  | none => false
  | some v => v.truthy

def jsTruthyNumOpt : Option ℚ → Bool
  | none => false
  | some x => !(x == 0)

def optTrim (o : Option String) : Option String := o.map String.trim

def jsOr (a b : Option String) : Option String := if jsTruthyStr a then a else b

def jsOrD (a : Option String) (b : String) : String := if jsTruthyStr a then a.getD "" else b

/-- Map.get on an insertion-ordered association list. -/
def mapGet {A : Type} (m : List (String × A)) (k : String) : Option A :=
  (m.find? (fun p => p.1 == k)).map Prod.snd

/-- Map.set: replace in place when the key exists, append otherwise. -/
def mapSet {A : Type} (m : List (String × A)) (k : String) (v : A) : List (String × A) :=
  if m.any (fun p => p.1 == k) then m.map (fun p => if p.1 == k then (k, v) else p)
  else m ++ [(k, v)]

/-- Map.delete. -/
def mapDelete {A : Type} (m : List (String × A)) (k : String) : List (String × A) :=
  m.filter (fun p => !(p.1 == k))

/-- The part types that contribute to token counting (constants.ts). -/
def COUNTABLE_PART_TYPES (t : String) : Bool := t == "text" || t == "reasoning"

/-- Finish reasons that invalidate TPS statistics (constants.ts). -/
def INVALID_FINISH_REASONS (f : String) : Bool := f == "tool-calls" || f == "unknown"

/-- tokenCounter.ts countByChars with the default chars/4 heuristic:
ceil(length / 4), 0 for the empty string.  (String.length counts
characters where JS counts UTF-16 code units; identical on the ASCII
inputs used here.) -/
def countTokensHeuristic (text : String) : ℚ :=
  if text.length = 0 then 0 else (((text.length + 3) / 4 : ℕ) : ℚ)

/-- The slice of the validated config record the handlers read, plus the
injected token counter. -/
structure PluginConfig where
  rollingWindowMs : ℚ
  minVisibleTPS : ℚ
  tok : String → ℚ

structure TrackerMetadata where
  agent : Option AgentVal
  agentId : Option String
  agentType : Option String
  name : Option String

/-- Per-stream tracker state (index.ts MessageTrackerState). -/
structure MessageTrackerState where
  key : String
  messageId : String
  partId : Option String
  tracker : TrackerState
  label : String
  firstTokenAt : Option ℚ
  lastUpdated : ℚ
  agent : Option AgentVal
  agentId : Option String
  agentType : Option String

/-- Per-session state (index.ts SessionTrackingState). -/
structure SessionTrackingState where
  aggregate : TrackerState
  aggregateFirstTokenAt : Option ℚ
  messageTrackers : List (String × MessageTrackerState)

/-- The module-level mutable state captured by the plugin closure.
pendingDisplayTimers records which sessions have an armed fallback timer
(the timer callback itself is real-time behaviour outside this model). -/
structure PluginState where
  sessionTrackers : List (String × SessionTrackingState)
  partTextCache : List (String × List (String × String))
  messageTokenCache : List (String × List (String × ℚ))
  messageRoleCache : List (String × List (String × Role))
  sessionAgentNameCache : List (String × String)
  primarySessionId : Option String
  pendingDisplayTimers : List String
  lastCleanupTime : ℚ

def initialPluginState : PluginState :=
  { sessionTrackers := [], partTextCache := [], messageTokenCache := [],
    messageRoleCache := [], sessionAgentNameCache := [], primarySessionId := none,
    pendingDisplayTimers := [], lastCleanupTime := 0 }

/-- abbreviateId: first four characters plus an ellipsis. -/
def abbreviateId (id : String) : String :=
  if id == "" || id.length ≤ 4 then id else id.take 4 ++ "…"

/-- buildAgentLabel: type-ish label from the metadata (falsy-aware ||
chain), with an abbreviated id in parentheses. -/
def buildAgentLabel (messageId : String) (md : TrackerMetadata) : String :=
  let typeLabel :=
    jsOrD (jsOr (optTrim (md.agent.bind AgentVal.typeField))
      (jsOr (optTrim md.agentType)
        (jsOr (optTrim (md.agent.bind AgentVal.nameField)) (optTrim md.name)))) "Subagent"
  let rawId :=
    jsOrD (jsOr (optTrim md.agentId) (optTrim (md.agent.bind AgentVal.idField))) messageId
  typeLabel ++ "(" ++ abbreviateId rawId ++ ")"

/-- buildTrackerKey: explicit agent identifier wins over agent type, which
wins over partId, which wins over (sessionId, messageId). -/
def buildTrackerKey (sessionId messageId : String) (partId : Option String)
    (md : TrackerMetadata) : String :=
  let agentId :=
    jsOr (optTrim md.agentId) (jsOr (optTrim (md.agent.bind AgentVal.idField)) (optTrim md.agentType))
  if jsTruthyStr agentId then sessionId ++ ":" ++ messageId ++ ":" ++ agentId.getD ""
  else if jsTruthyStr partId then sessionId ++ ":" ++ messageId ++ ":" ++ partId.getD ""
  else sessionId ++ ":" ++ messageId

/-- getOrCreateSessionState. -/
noncomputable def getOrCreateSessionState (cfg : PluginConfig) (st : PluginState)
    (sessionId : String) (now : ℚ) : SessionTrackingState × PluginState :=
  match mapGet st.sessionTrackers sessionId with
  | some s => (s, st)
  | none =>
      let s : SessionTrackingState :=
        { aggregate := createTracker (some cfg.rollingWindowMs) now
          aggregateFirstTokenAt := none
          messageTrackers := [] }
      (s, { st with sessionTrackers := mapSet st.sessionTrackers sessionId s })

/-- getOrCreateMessageTrackerState: lookup-or-create by composite key,
refreshing the label and merging newly supplied truthy metadata. -/
noncomputable def getOrCreateMessageTrackerState (cfg : PluginConfig) (st : PluginState)
    (sessionId messageId : String) (partId : Option String) (md : TrackerMetadata)
    (now : ℚ) : MessageTrackerState × PluginState :=
  let r := getOrCreateSessionState cfg st sessionId now
  let sessionState := r.1
  let st1 := r.2
  let key := buildTrackerKey sessionId messageId partId md
  let nextLabel := buildAgentLabel messageId md
  let base : MessageTrackerState :=
    match mapGet sessionState.messageTrackers key with
    | none =>
        { key := key, messageId := messageId, partId := partId
          tracker := createTracker (some cfg.rollingWindowMs) now
          label := nextLabel, firstTokenAt := none, lastUpdated := 0
          agent := md.agent, agentId := md.agentId, agentType := md.agentType }
    | some t0 => if t0.label == nextLabel then t0 else { t0 with label := nextLabel }
  let merged :=
    { base with
      agent := if jsTruthyAgent md.agent then md.agent else base.agent
      agentId := if jsTruthyStr md.agentId then md.agentId else base.agentId
      agentType := if jsTruthyStr md.agentType then md.agentType else base.agentType }
  let sessionState2 :=
    { sessionState with messageTrackers := mapSet sessionState.messageTrackers key merged }
  (merged, { st1 with sessionTrackers := mapSet st1.sessionTrackers sessionId sessionState2 })

/-- Boolean(trackerState.agent || trackerState.agentId ||
trackerState.agentType). -/
def hasAgentMetadataOf (t : MessageTrackerState) : Bool :=
  jsTruthyAgent t.agent || jsTruthyStr t.agentId || jsTruthyStr t.agentType

/-- removeMessageTrackerState: delete every tracker sharing the
messageId; reset the aggregate when the map empties. -/
def removeMessageTrackerState (st : PluginState) (sessionId messageId : String)
    (now : ℚ) : PluginState :=
  match mapGet st.sessionTrackers sessionId with
  | none => st
  | some ss =>
      let mts := ss.messageTrackers.filter (fun p => !(p.2.messageId == messageId))
      let ss2 :=
        if mts.isEmpty then
          { aggregate := resetTracker ss.aggregate now
            aggregateFirstTokenAt := none
            messageTrackers := mts }
        else { ss with messageTrackers := mts }
      { st with sessionTrackers := mapSet st.sessionTrackers sessionId ss2 }

/-- One session's stale-tracker sweep: collect keys whose lastUpdated is
positive and older than MAX_MESSAGE_AGE_MS, delete them, reset the
aggregate if the map emptied; also reports the deleted message ids. -/
def cleanupSession (ss : SessionTrackingState) (now : ℚ) :
    SessionTrackingState × List String :=
  let ks := (ss.messageTrackers.filter (fun p =>
    decide (0 < p.2.lastUpdated) && decide (MAX_MESSAGE_AGE_MS < now - p.2.lastUpdated))).map Prod.fst
  let deletedMsgIds :=
    (ss.messageTrackers.filter (fun p => ks.contains p.1)).map (fun p => p.2.messageId)
  let mts := ss.messageTrackers.filter (fun p => !(ks.contains p.1))
  let ss2 :=
    if mts.isEmpty then
      { aggregate := resetTracker ss.aggregate now
        aggregateFirstTokenAt := none
        messageTrackers := mts }
    else { ss with messageTrackers := mts }
  (ss2, deletedMsgIds)

/-- Apply one session's sweep and scrub that session's caches. -/
def cleanupOneSession (now : ℚ) (st : PluginState) (sid : String) : PluginState :=
  match mapGet st.sessionTrackers sid with
  | none => st
  | some ss =>
      let r := cleanupSession ss now
      { st with
        sessionTrackers := mapSet st.sessionTrackers sid r.1
        messageTokenCache :=
          match mapGet st.messageTokenCache sid with
          | none => st.messageTokenCache
          | some tc =>
              mapSet st.messageTokenCache sid
                (tc.filter (fun p => !(r.2.contains p.1)))
        messageRoleCache :=
          match mapGet st.messageRoleCache sid with
          | none => st.messageRoleCache
          | some rc =>
              mapSet st.messageRoleCache sid
                (rc.filter (fun p => !(r.2.contains p.1)))
        partTextCache :=
          match mapGet st.partTextCache sid with
          | none => st.partTextCache
          | some pc =>
              mapSet st.partTextCache sid
                (pc.filter (fun p => !(r.2.any (fun m => p.1.startsWith (m ++ ":"))))) }

/-- cleanupStaleMessages: gated to at most once per CLEANUP_INTERVAL_MS
by the lastCleanupTime stamp. -/
def cleanupStaleMessages (st : PluginState) (now : ℚ) : PluginState :=
  if now - st.lastCleanupTime < CLEANUP_INTERVAL_MS then st
  else
    (st.sessionTrackers.map Prod.fst).foldl (cleanupOneSession now)
      { st with lastCleanupTime := now }

/-- isPrimarySessionActive: the primary session has some tracker without
agent metadata whose firstTokenAt is truthy and whose lastUpdated lies
within max(rollingWindowMs, 4 x MIN_TPS_ELAPSED_MS) of now. -/
def isPrimarySessionActive (cfg : PluginConfig) (st : PluginState) (now : ℚ) : Bool :=
  match st.primarySessionId with
  | none => false
  | some pid =>
      match mapGet st.sessionTrackers pid with
      | none => false
      | some ss =>
          let activityWindow := max cfg.rollingWindowMs (MIN_TPS_ELAPSED_MS * 4)
          ss.messageTrackers.any (fun p =>
            !(hasAgentMetadataOf p.2) && jsTruthyNumOpt p.2.firstTokenAt &&
              decide (now - p.2.lastUpdated ≤ activityWindow))

/-- getAllActiveAgentsGlobally: ids and labels of the active subagent
streams (metadata-tagged, or living in a non-primary session).  The
source also carries each entry's rates and sorts by descending smoothed
rate; the claims below use only membership, so the rate fields and the
sort are not modelled. -/
def getAllActiveAgentsGlobally (cfg : PluginConfig) (st : PluginState) (now : ℚ) :
    List (String × String) :=
  let activityWindow := max cfg.rollingWindowMs (MIN_TPS_ELAPSED_MS * 4)
  st.sessionTrackers.foldl (fun acc sp =>
    acc ++ sp.2.messageTrackers.foldl (fun acc2 tp =>
      if !(jsTruthyNumOpt tp.2.firstTokenAt) then acc2
      else if decide (activityWindow < now - tp.2.lastUpdated) then acc2
      else if hasAgentMetadataOf tp.2 then acc2 ++ [(tp.1, tp.2.label)]
      else if (match st.primarySessionId with
               | some p => !(sp.1 == p)
               | none => true) then
        let agentName := jsOrD (mapGet st.sessionAgentNameCache sp.1) "bg"
        let shortId := abbreviateId (if sp.1.startsWith "ses_" then sp.1.drop 4 else sp.1)
        acc2 ++ [(tp.1, agentName ++ "(" ++ shortId ++ ")")]
      else acc2) []) []

/-- cleanup(): clears all registries and timers and the primary marker;
ui.clear() is part of the display collaborator. -/
def cleanup (st : PluginState) : PluginState :=
  { sessionTrackers := [], partTextCache := [], messageTokenCache := [],
    messageRoleCache := [], sessionAgentNameCache := [], primarySessionId := none,
    pendingDisplayTimers := [], lastCleanupTime := st.lastCleanupTime }

/-- A message.part.updated payload: the part fields the handler reads,
with `text` holding extractPartText(part) (for the countable types that
is part.text ?? ""). -/
structure PartEvent where
  partType : String
  sessionID : Option String
  messageID : String
  id : Option String
  text : String
  delta : Option String
  agent : Option AgentVal
  agentId : Option String
  agentType : Option String
  name : Option String

/-- A message.updated payload (event.properties.info). -/
structure InfoEvent where
  id : String
  sessionID : String
  role : Role
  created : Option ℚ
  completed : Option ℚ
  tokensOutput : Option ℚ
  tokensReasoning : Option ℚ
  finish : Option String
  agent : Option AgentVal
  agentId : Option String
  agentType : Option String

/-- Observations of one handleMessagePartUpdated call: the delta text and
token count passed to recordTokens (none when nothing was recorded), and
whether a ui.updateDisplay emission was issued. -/
structure PartObs where
  recorded : Option (String × ℚ)
  displayed : Prop

/-- JS template rendering of a possibly-undefined string. -/
def optRender : Option String → String
  | some s => s
  | none => "undefined"

/-- Result of the guard section of handleMessagePartUpdated: either the
event is ignored for counting (possibly after refreshing the part-text
cache), or it proceeds to the counting section with a validated session id
and delta string. -/
inductive PartGate where
  | ignored (st : PluginState)
  | counted (sessionId deltaStr : String) (st : PluginState)

def partGate (st : PluginState) (ev : PartEvent) : PartGate :=
  if !(COUNTABLE_PART_TYPES ev.partType) then .ignored st
  else
    let sessionId := jsOrD ev.sessionID "default"
    let partText := ev.text
    let cacheKey := ev.messageID ++ ":" ++ optRender ev.id ++ ":" ++ ev.partType
    let sessionCache := (mapGet st.partTextCache sessionId).getD []
    let previousText := (mapGet sessionCache cacheKey).getD ""
    let recompute := !(jsTruthyStr ev.delta) && decide (0 < partText.length)
    let delta :=
      if recompute then
        some (if partText.startsWith previousText then partText.drop previousText.length
              else partText)
      else ev.delta
    let st1 :=
      if recompute then
        { st with
          partTextCache :=
            mapSet st.partTextCache sessionId (mapSet sessionCache cacheKey partText) }
      else st
    if !(jsTruthyStr delta) then .ignored st1
    else
      let role := (mapGet st1.messageRoleCache sessionId).bind (fun rc => mapGet rc ev.messageID)
      if !(role == some Role.assistant) then .ignored st1
      else .counted sessionId (delta.getD "") st1

noncomputable def countTokensPath (cfg : PluginConfig) (st1 : PluginState) (ev : PartEvent)
    (sessionId deltaStr : String) (now : ℚ) : PluginState × PartObs :=
  let md : TrackerMetadata := ⟨ev.agent, ev.agentId, ev.agentType, ev.name⟩
  let r := getOrCreateMessageTrackerState cfg st1 sessionId ev.messageID ev.id md now
  let mt0 := r.1
  let st3 := cleanupStaleMessages r.2 now
  let ss3 := (mapGet st3.sessionTrackers sessionId).getD
    { aggregate := createTracker (some cfg.rollingWindowMs) now
      aggregateFirstTokenAt := none, messageTrackers := [] }
  let firstAggregate := !(jsTruthyNumOpt ss3.aggregateFirstTokenAt)
  let aggFirst := if firstAggregate then some now else ss3.aggregateFirstTokenAt
  let timers1 :=
    if firstAggregate then
      (if st3.pendingDisplayTimers.contains sessionId then st3.pendingDisplayTimers
       else st3.pendingDisplayTimers ++ [sessionId])
    else st3.pendingDisplayTimers
  let firstForTracker := !(jsTruthyNumOpt mt0.firstTokenAt)
  let mt1 := if firstForTracker then { mt0 with firstTokenAt := some now } else mt0
  let primary1 :=
    if firstForTracker && !(hasAgentMetadataOf mt0) && st3.primarySessionId.isNone
    then some sessionId else st3.primarySessionId
  let mt2 := { mt1 with lastUpdated := now }
  let tokenCount := cfg.tok deltaStr
  let mt3 := { mt2 with tracker := recordTokens mt2.tracker tokenCount now }
  let mtsFinal :=
    if (mapGet ss3.messageTrackers mt0.key).isSome
    then mapSet ss3.messageTrackers mt0.key mt3
    else ss3.messageTrackers
  let ssFinal : SessionTrackingState :=
    { aggregate := recordTokens ss3.aggregate tokenCount now
      aggregateFirstTokenAt := aggFirst
      messageTrackers := mtsFinal }
  let st4 :=
    { st3 with
      sessionTrackers := mapSet st3.sessionTrackers sessionId ssFinal
      primarySessionId := primary1
      pendingDisplayTimers := timers1 }
  let mc := (mapGet st4.messageTokenCache sessionId).getD []
  let prevTokens := (mapGet mc ev.messageID).getD 0
  let st5 :=
    { st4 with
      messageTokenCache :=
        mapSet st4.messageTokenCache sessionId
          (mapSet mc ev.messageID (prevTokens + tokenCount)) }
  let smoothedTps := getSmoothedTPS ssFinal.aggregate now
  let elapsedSinceFirstToken :=
    match aggFirst with
    | none => (0 : ℚ)
    | some t => max 0 (now - t)
  if MIN_TPS_ELAPSED_MS ≤ elapsedSinceFirstToken then
    let st6 :=
      { st5 with
        pendingDisplayTimers :=
          st5.pendingDisplayTimers.filter (fun x => !(x == sessionId)) }
    let agents := getAllActiveAgentsGlobally cfg st6 now
    let hasPrimaryActivity :=
      isPrimarySessionActive cfg st6 now = true ∧ ((cfg.minVisibleTPS : ℝ) ≤ smoothedTps)
    (st6, ⟨some (deltaStr, tokenCount),
      hasPrimaryActivity ∨ (¬hasPrimaryActivity ∧ agents ≠ [])⟩)
  else (st5, ⟨some (deltaStr, tokenCount), False⟩)

noncomputable def handleMessagePartUpdated (cfg : PluginConfig) (st : PluginState)
    (ev : PartEvent) (now : ℚ) : PluginState × PartObs :=
  match partGate st ev with
  | .ignored st1 => (st1, ⟨none, False⟩)
  | .counted sessionId deltaStr st1 => countTokensPath cfg st1 ev sessionId deltaStr now

/-- handleMessageUpdated: refresh role and agent-name caches; for
assistant messages merge reported token counts, decide whether final
stats are shown (the returned Bool), scrub the part-text cache for the
message, and on completion drop its caches and trackers. -/
noncomputable def handleMessageUpdated (cfg : PluginConfig) (st : PluginState)
    (info : InfoEvent) (now : ℚ) : PluginState × Bool :=
  let roleCache := (mapGet st.messageRoleCache info.sessionID).getD []
  let st1 :=
    { st with
      messageRoleCache :=
        mapSet st.messageRoleCache info.sessionID (mapSet roleCache info.id info.role) }
  let st2 :=
    match info.agent with
    | some (.str s) =>
        if !(s == "") then
          { st1 with sessionAgentNameCache := mapSet st1.sessionAgentNameCache info.sessionID s }
        else st1
    | _ => st1
  if info.role = Role.assistant then
    let sessionId := info.sessionID
    let tokenCache := (mapGet st2.messageTokenCache sessionId).getD []
    let st3 := { st2 with messageTokenCache := mapSet st2.messageTokenCache sessionId tokenCache }
    let outputTokens := info.tokensOutput.getD 0
    let reasoningTokens := info.tokensReasoning.getD 0
    let reportedTokens := outputTokens + reasoningTokens
    let messageId := info.id
    let md : TrackerMetadata := ⟨info.agent, info.agentId, info.agentType, none⟩
    let r := getOrCreateMessageTrackerState cfg st3 sessionId messageId none md now
    let mt := r.1
    let st4 := r.2
    let tokenCache2 := (mapGet st4.messageTokenCache sessionId).getD []
    let previous := (mapGet tokenCache2 messageId).getD 0
    let nextTokens := max previous reportedTokens
    let st5 :=
      { st4 with
        messageTokenCache :=
          mapSet st4.messageTokenCache sessionId (mapSet tokenCache2 messageId nextTokens) }
    let finalShown :=
      if jsTruthyNumOpt info.completed then
        let completedAt := info.completed.getD now
        let createdAt := info.created.getD completedAt
        let firstTokenAt := mt.firstTokenAt.getD createdAt
        let elapsedMs := max 0 (completedAt - firstTokenAt)
        let cachedTokens := (mapGet ((mapGet st5.messageTokenCache sessionId).getD []) messageId).getD 0
        let totalTokens := if 0 < reportedTokens then reportedTokens else cachedTokens
        let hasValidFinish :=
          match info.finish with
          | none => false
          | some f => !(INVALID_FINISH_REASONS f)
        hasValidFinish && decide (0 < totalTokens) && decide (MIN_TPS_ELAPSED_MS ≤ elapsedMs)
      else false
    let st6 :=
      match mapGet st5.partTextCache sessionId with
      | none => st5
      | some pc =>
          { st5 with
            partTextCache :=
              mapSet st5.partTextCache sessionId
                (pc.filter (fun p => !(p.1.startsWith (messageId ++ ":")))) }
    let st7 :=
      if jsTruthyNumOpt info.completed then
        let tc := (mapGet st6.messageTokenCache sessionId).getD []
        let rc := (mapGet st6.messageRoleCache sessionId).getD []
        let stA :=
          { st6 with
            messageTokenCache := mapSet st6.messageTokenCache sessionId (mapDelete tc messageId)
            messageRoleCache := mapSet st6.messageRoleCache sessionId (mapDelete rc messageId) }
        removeMessageTrackerState stA sessionId messageId now
      else st6
    (st7, finalShown)
  else (st2, false)

/-- handleSessionIdle: tear down one session; a full cleanup when no
session remains. -/
def handleSessionIdle (st : PluginState) (sessionID : Option String) : PluginState :=
  let sessionId := jsOrD sessionID "default"
  let st1 :=
    { st with
      pendingDisplayTimers := st.pendingDisplayTimers.filter (fun x => !(x == sessionId))
      sessionTrackers := mapDelete st.sessionTrackers sessionId
      partTextCache := mapDelete st.partTextCache sessionId
      messageTokenCache := mapDelete st.messageTokenCache sessionId
      messageRoleCache := mapDelete st.messageRoleCache sessionId
      sessionAgentNameCache := mapDelete st.sessionAgentNameCache sessionId }
  if st1.sessionTrackers.isEmpty then cleanup st1 else st1

/-- The inbound event alphabet, each tagged with its Date.now() instant. -/
inductive PluginEvent where
  | partUpdated (ev : PartEvent) (now : ℚ)
  | msgUpdated (info : InfoEvent) (now : ℚ)
  | sessionIdle (sessionID : Option String) (now : ℚ)

/-- One dispatch of the plugin's event handler. -/
noncomputable def pluginStep (cfg : PluginConfig) (st : PluginState) :
    PluginEvent → PluginState
  | .partUpdated ev now => (handleMessagePartUpdated cfg st ev now).1
  | .msgUpdated info now => (handleMessageUpdated cfg st info now).1
  | .sessionIdle sid _ => handleSessionIdle st sid

/-- Fold a list of events through the plugin. -/
noncomputable def runEvents (cfg : PluginConfig) (st : PluginState)
    (evs : List PluginEvent) : PluginState :=
  evs.foldl (pluginStep cfg) st

/-- The default configuration relevant to the handlers: rolling window
1000 ms, minVisibleTPS 0, chars/4 token heuristic. -/
def cexCfg : PluginConfig := ⟨1000, 0, countTokensHeuristic⟩

def c5e1 : PluginEvent :=
  .msgUpdated ⟨"m1", "A", .assistant, none, none, none, none, none, none, none, none⟩ 0

def c5e2 : PluginEvent :=
  .partUpdated ⟨"text", some "A", "m1", some "p1", "hello", some "hello",
    none, none, none, none⟩ 1

def c5e3 : PluginEvent := .sessionIdle (some "A") 2

def c5e4 : PluginEvent :=
  .msgUpdated ⟨"m2", "B", .assistant, none, none, none, none, none, none, none, none⟩ 3

def c5e5 : PluginEvent :=
  .partUpdated ⟨"text", some "B", "m2", some "p2", "world", some "world",
    none, none, none, none⟩ 4

/-- The state carried by either gate outcome. -/
def PartGate.state : PartGate → PluginState
  | .ignored st => st
  | .counted _ _ st => st

/-- The cached role consulted by the token-delta gate. -/
def roleOf (st : PluginState) (ev : PartEvent) : Option Role :=
  (mapGet st.messageRoleCache (jsOrD ev.sessionID "default")).bind
    (fun rc => mapGet rc ev.messageID)

/-- Whether a part event carries (truthy) explicit agent metadata. -/
def eventHasAgentMeta (ev : PartEvent) : Bool :=
  jsTruthyAgent ev.agent || jsTruthyStr ev.agentId || jsTruthyStr ev.agentType

theorem partGate_state_eq (st : PluginState) (ev : PartEvent) :
    (partGate st ev).state.sessionTrackers = st.sessionTrackers ∧
      (partGate st ev).state.primarySessionId = st.primarySessionId ∧
      (partGate st ev).state.messageRoleCache = st.messageRoleCache ∧
      (partGate st ev).state.lastCleanupTime = st.lastCleanupTime := by
  unfold partGate
  split_ifs <;> simp only [PartGate.state] <;> (try split_ifs) <;> simp

theorem mapGet_mapSet_self {A : Type} (m : List (String × A)) (k : String) (v : A) :
    mapGet (mapSet m k v) k = some v := by
  induction m with
  | nil => simp [mapGet, mapSet]
  | cons p rest ih =>
      by_cases hp : (p.1 == k) = true <;>
        by_cases hr : (rest.any (fun q => q.1 == k)) = true <;>
          simp_all [mapGet, mapSet, List.any_cons, List.find?]

theorem getOrCreateSessionState_aux (cfg : PluginConfig) (st : PluginState)
    (sid : String) (now : ℚ) :
    (getOrCreateSessionState cfg st sid now).2.primarySessionId = st.primarySessionId ∧
      (getOrCreateSessionState cfg st sid now).2.partTextCache = st.partTextCache ∧
      (getOrCreateSessionState cfg st sid now).2.lastCleanupTime = st.lastCleanupTime := by
  unfold getOrCreateSessionState
  cases h : mapGet st.sessionTrackers sid <;> simp

theorem getOrCreateMessageTrackerState_aux (cfg : PluginConfig) (st : PluginState)
    (sid mid : String) (pid : Option String) (md : TrackerMetadata) (now : ℚ) :
    (getOrCreateMessageTrackerState cfg st sid mid pid md now).2.primarySessionId
        = st.primarySessionId ∧
      (getOrCreateMessageTrackerState cfg st sid mid pid md now).2.partTextCache
        = st.partTextCache ∧
      (getOrCreateMessageTrackerState cfg st sid mid pid md now).2.lastCleanupTime
        = st.lastCleanupTime := by
  unfold getOrCreateMessageTrackerState
  have h := getOrCreateSessionState_aux cfg st sid now
  exact ⟨h.1, h.2.1, h.2.2⟩

theorem cleanupOneSession_aux (now : ℚ) (st : PluginState) (sid : String) :
    (cleanupOneSession now st sid).primarySessionId = st.primarySessionId := by
  unfold cleanupOneSession
  cases h : mapGet st.sessionTrackers sid <;> simp

theorem foldl_cleanupOneSession_primary (now : ℚ) (l : List String) :
    ∀ st : PluginState,
      (l.foldl (cleanupOneSession now) st).primarySessionId = st.primarySessionId := by
  induction l with
  | nil => intro st; rfl
  | cons x rest ih =>
      intro st
      simp only [List.foldl_cons]
      rw [ih, cleanupOneSession_aux]

theorem cleanupStaleMessages_primary (st : PluginState) (now : ℚ) :
    (cleanupStaleMessages st now).primarySessionId = st.primarySessionId := by
  unfold cleanupStaleMessages
  split
  · rfl
  · rw [foldl_cleanupOneSession_primary]

theorem removeMessageTrackerState_primary (st : PluginState) (sid mid : String) (now : ℚ) :
    (removeMessageTrackerState st sid mid now).primarySessionId = st.primarySessionId := by
  unfold removeMessageTrackerState
  cases h : mapGet st.sessionTrackers sid <;> simp

/-- The primary-session value stored by the counting path: assigned to
this session only on the tracker's first token, when the tracker carries
no agent metadata and no primary is set yet. -/
noncomputable def primaryAfterCount (cfg : PluginConfig) (st1 : PluginState)
    (ev : PartEvent) (sid : String) (now : ℚ) : Option String :=
  let mt0 := (getOrCreateMessageTrackerState cfg st1 sid
    ev.messageID ev.id ⟨ev.agent, ev.agentId, ev.agentType, ev.name⟩ now).1
  let st3 := cleanupStaleMessages (getOrCreateMessageTrackerState cfg st1 sid
    ev.messageID ev.id ⟨ev.agent, ev.agentId, ev.agentType, ev.name⟩ now).2 now
  if !(jsTruthyNumOpt mt0.firstTokenAt) && !(hasAgentMetadataOf mt0)
      && st3.primarySessionId.isNone
  then some sid else st3.primarySessionId

theorem countTokensPath_primary_eq (cfg : PluginConfig) (st1 : PluginState)
    (ev : PartEvent) (sid d : String) (now : ℚ) :
    (countTokensPath cfg st1 ev sid d now).1.primarySessionId
      = primaryAfterCount cfg st1 ev sid now := by
  simp only [countTokensPath,
    apply_ite (fun x : PluginState × PartObs => x.1.primarySessionId), ite_self]
  rfl

theorem countTokensPath_primary (cfg : PluginConfig) (st1 : PluginState) (ev : PartEvent)
    (sid d : String) (now : ℚ) :
    (countTokensPath cfg st1 ev sid d now).1.primarySessionId = st1.primarySessionId ∨
      (st1.primarySessionId = none ∧
        (countTokensPath cfg st1 ev sid d now).1.primarySessionId = some sid) := by
  have hp : (cleanupStaleMessages (getOrCreateMessageTrackerState cfg st1 sid
      ev.messageID ev.id ⟨ev.agent, ev.agentId, ev.agentType, ev.name⟩ now).2 now).primarySessionId
      = st1.primarySessionId := by
    rw [cleanupStaleMessages_primary,
      (getOrCreateMessageTrackerState_aux cfg st1 sid ev.messageID ev.id _ now).1]
  rw [countTokensPath_primary_eq]
  simp only [primaryAfterCount]
  rw [hp]
  split
  · next hcond =>
      right
      refine ⟨?_, rfl⟩
      have h2 := ((Bool.and_eq_true _ _).mp hcond).2
      exact Option.isNone_iff_eq_none.mp h2
  · left
    rfl

theorem getOrCreate_st_primary (cfg : PluginConfig) (st : PluginState) (sid mid : String)
    (pid : Option String) (md : TrackerMetadata) (now : ℚ) :
    (getOrCreateMessageTrackerState cfg st sid mid pid md now).2.primarySessionId
      = st.primarySessionId :=
  (getOrCreateMessageTrackerState_aux cfg st sid mid pid md now).1

theorem handleMessageUpdated_primary (cfg : PluginConfig) (st : PluginState)
    (info : InfoEvent) (now : ℚ) :
    (handleMessageUpdated cfg st info now).1.primarySessionId = st.primarySessionId := by
  unfold handleMessageUpdated
  split <;> (try split) <;> (try split) <;> (try split) <;>
    (try simp [removeMessageTrackerState_primary, getOrCreate_st_primary,
      apply_ite (fun x : PluginState => x.primarySessionId)]) <;>
    (try split) <;>
    (try simp [removeMessageTrackerState_primary, getOrCreate_st_primary])

theorem handleSessionIdle_primary (st : PluginState) (sid : Option String) :
    (handleSessionIdle st sid).primarySessionId = st.primarySessionId ∨
      (handleSessionIdle st sid).primarySessionId = none := by
  simp only [handleSessionIdle, cleanup]
  split
  · right; rfl
  · left; rfl

theorem getOrCreate_meta_truthy (cfg : PluginConfig) (st : PluginState) (sid mid : String)
    (pid : Option String) (md : TrackerMetadata) (now : ℚ)
    (h : (jsTruthyAgent md.agent || jsTruthyStr md.agentId || jsTruthyStr md.agentType) = true) :
    hasAgentMetadataOf (getOrCreateMessageTrackerState cfg st sid mid pid md now).1 = true := by
  unfold getOrCreateMessageTrackerState hasAgentMetadataOf
  cases hA : jsTruthyAgent md.agent with
  | true => simp [hA]
  | false =>
      cases hB : jsTruthyStr md.agentId with
      | true => simp [hA, hB]
      | false =>
          cases hC : jsTruthyStr md.agentType with
          | true => simp [hA, hB, hC]
          | false => rw [hA, hB, hC] at h; simp at h

theorem countTokensPath_primary_meta (cfg : PluginConfig) (st1 : PluginState)
    (ev : PartEvent) (sid d : String) (now : ℚ)
    (h : eventHasAgentMeta ev = true) :
    (countTokensPath cfg st1 ev sid d now).1.primarySessionId = st1.primarySessionId := by
  rw [countTokensPath_primary_eq]
  simp only [primaryAfterCount]
  have hm : hasAgentMetadataOf (getOrCreateMessageTrackerState cfg st1 sid
      ev.messageID ev.id ⟨ev.agent, ev.agentId, ev.agentType, ev.name⟩ now).1 = true :=
    getOrCreate_meta_truthy cfg st1 sid ev.messageID ev.id _ now h
  rw [hm]
  simp [cleanupStaleMessages_primary, getOrCreate_st_primary]

theorem handleMessagePartUpdated_primary (cfg : PluginConfig) (st : PluginState)
    (ev : PartEvent) (now : ℚ) :
    (handleMessagePartUpdated cfg st ev now).1.primarySessionId = st.primarySessionId ∨
      (st.primarySessionId = none ∧
        ∃ sid, (handleMessagePartUpdated cfg st ev now).1.primarySessionId = some sid) := by
  unfold handleMessagePartUpdated
  cases hg : partGate st ev with
  | ignored st1 =>
      left
      have h := partGate_state_eq st ev
      rw [hg] at h
      simp only [PartGate.state] at h
      exact h.2.1
  | counted sid d st1 =>
      have h := partGate_state_eq st ev
      rw [hg] at h
      simp only [PartGate.state] at h
      rcases countTokensPath_primary cfg st1 ev sid d now with hc | ⟨h0, hc⟩
      · left
        simp only
        rw [hc, h.2.1]
      · right
        constructor
        · rw [← h.2.1]; exact h0
        · exact ⟨sid, hc⟩

theorem handleMessagePartUpdated_primary_meta (cfg : PluginConfig) (st : PluginState)
    (ev : PartEvent) (now : ℚ) (h : eventHasAgentMeta ev = true) :
    (handleMessagePartUpdated cfg st ev now).1.primarySessionId = st.primarySessionId := by
  unfold handleMessagePartUpdated
  cases hg : partGate st ev with
  | ignored st1 =>
      have hs := partGate_state_eq st ev
      rw [hg] at hs
      simp only [PartGate.state] at hs
      exact hs.2.1
  | counted sid d st1 =>
      have hs := partGate_state_eq st ev
      rw [hg] at hs
      simp only [PartGate.state] at hs
      simp only
      rw [countTokensPath_primary_meta cfg st1 ev sid d now h, hs.2.1]

/-- C5 amended: the primary session is sticky while set — no event ever
replaces it with a different session directly; it can only be cleared to
null by the full cleanup (when the last session goes idle), after which a
later stream may establish a new primary.  A stream carrying agent
metadata never establishes primary status, and trackers with agent
metadata never count as primary activity in isPrimarySessionActive. -/
theorem spec_c5_amended (cfg : PluginConfig) (st : PluginState) :
    (∀ (e : PluginEvent) (s : String), st.primarySessionId = some s →
      (pluginStep cfg st e).primarySessionId = some s ∨
        (pluginStep cfg st e).primarySessionId = none) ∧
      (∀ (ev : PartEvent) (now : ℚ), eventHasAgentMeta ev = true →
        (pluginStep cfg st (.partUpdated ev now)).primarySessionId = st.primarySessionId) ∧
      (∀ (now : ℚ) (pid : String) (ss : SessionTrackingState),
        st.primarySessionId = some pid →
        mapGet st.sessionTrackers pid = some ss →
        (∀ p ∈ ss.messageTrackers, hasAgentMetadataOf p.2 = true) →
        isPrimarySessionActive cfg st now = false) := by
  refine ⟨?_, ?_, ?_⟩
  · intro e s hs
    cases e with
    | partUpdated ev now =>
        rcases handleMessagePartUpdated_primary cfg st ev now with hc | ⟨h0, _⟩
        · left; show (handleMessagePartUpdated cfg st ev now).1.primarySessionId = some s
          rw [hc, hs]
        · rw [hs] at h0; cases h0
    | msgUpdated info now =>
        left
        show (handleMessageUpdated cfg st info now).1.primarySessionId = some s
        rw [handleMessageUpdated_primary, hs]
    | sessionIdle sid now =>
        rcases handleSessionIdle_primary st sid with hc | hc
        · left; show (handleSessionIdle st sid).primarySessionId = some s
          rw [hc, hs]
        · right; exact hc
  · intro ev now h
    exact handleMessagePartUpdated_primary_meta cfg st ev now h
  · intro now pid ss hp hss hall
    rw [Bool.eq_false_iff]
    intro htrue
    unfold isPrimarySessionActive at htrue
    split at htrue
    · exact absurd htrue (by simp)
    · next pid2 hpid2 =>
        split at htrue
        · exact absurd htrue (by simp)
        · next ss2 hss2 =>
            rw [hp] at hpid2
            injection hpid2 with hpe
            subst hpe
            rw [hss] at hss2
            injection hss2 with hse
            subst hse
            rcases List.any_eq_true.mp htrue with ⟨p, hmem, hpred⟩
            rw [hall p hmem] at hpred
            simp at hpred

/-- C5 counterexample: from a fresh plugin, session A becomes primary on
its first token; after session A goes idle (the full cleanup clears the
primary marker), session B's first token makes B primary — the primary
session IS reassigned to a different session within one plugin instance. -/
theorem spec_c5_counterexample :
    (runEvents cexCfg initialPluginState [c5e1, c5e2]).primarySessionId = some "A" ∧
      (runEvents cexCfg initialPluginState [c5e1, c5e2, c5e3, c5e4, c5e5]).primarySessionId
        = some "B" := by
  constructor <;>
    simp +decide [runEvents, pluginStep, handleMessageUpdated, handleMessagePartUpdated,
      partGate, countTokensPath, handleSessionIdle, cleanup, cleanupStaleMessages,
      getOrCreateMessageTrackerState, getOrCreateSessionState, buildTrackerKey,
      buildAgentLabel, abbreviateId, removeMessageTrackerState, hasAgentMetadataOf,
      mapGet, mapSet, mapDelete, jsTruthyStr, jsTruthyAgent, jsTruthyNumOpt, jsOr, jsOrD,
      optTrim, optRender, COUNTABLE_PART_TYPES, INVALID_FINISH_REASONS, countTokensHeuristic,
      initialPluginState, cexCfg, c5e1, c5e2, c5e3, c5e4, c5e5,
      CLEANUP_INTERVAL_MS, MIN_TPS_ELAPSED_MS, MAX_MESSAGE_AGE_MS]

noncomputable def c5wTracker : MessageTrackerState :=
  { key := "A:m1:agent9", messageId := "m1", partId := some "p1"
    tracker := { startTime := 0, totalTokens := 0, buffer := [], windowMs := 1000,
                 smoothedTps := 0, lastSmoothedAt := 0, hasSmoothedValue := false }
    label := "agent9(m1)", firstTokenAt := some 1, lastUpdated := 1
    agent := none, agentId := some "agent9", agentType := none }

noncomputable def c5wSession : SessionTrackingState :=
  { aggregate := { startTime := 0, totalTokens := 0, buffer := [], windowMs := 1000,
                   smoothedTps := 0, lastSmoothedAt := 0, hasSmoothedValue := false }
    aggregateFirstTokenAt := some 1
    messageTrackers := [("A:m1:agent9", c5wTracker)] }

noncomputable def c5wState : PluginState :=
  { initialPluginState with
    sessionTrackers := [("A", c5wSession)]
    primarySessionId := some "A" }

/-- Witness for the amended C5 at a concrete state with primary session
A holding one metadata-tagged tracker. -/
theorem spec_c5_amended_witness :
    (c5wState.primarySessionId = some "A" ∧
      ((pluginStep cexCfg c5wState (.sessionIdle (some "Z") 7)).primarySessionId = some "A" ∨
        (pluginStep cexCfg c5wState (.sessionIdle (some "Z") 7)).primarySessionId = none)) ∧
      (eventHasAgentMeta ⟨"text", some "A", "m1", some "p1", "x", some "x",
          none, some "agent9", none, none⟩ = true ∧
        (pluginStep cexCfg c5wState (.partUpdated ⟨"text", some "A", "m1", some "p1", "x",
            some "x", none, some "agent9", none, none⟩ 7)).primarySessionId
          = c5wState.primarySessionId) ∧
      (mapGet c5wState.sessionTrackers "A" = some c5wSession ∧
        (∀ p ∈ c5wSession.messageTrackers, hasAgentMetadataOf p.2 = true) ∧
        isPrimarySessionActive cexCfg c5wState 7 = false) := by
  have h1 : c5wState.primarySessionId = some "A" := rfl
  have h2 : eventHasAgentMeta ⟨"text", some "A", "m1", some "p1", "x", some "x",
      none, some "agent9", none, none⟩ = true := by
    simp [eventHasAgentMeta, jsTruthyAgent, jsTruthyStr]
  have h3 : mapGet c5wState.sessionTrackers "A" = some c5wSession := by
    simp [c5wState, mapGet, initialPluginState]
  have h4 : ∀ p ∈ c5wSession.messageTrackers, hasAgentMetadataOf p.2 = true := by
    intro p hp
    simp only [c5wSession, List.mem_singleton] at hp
    subst hp
    simp [hasAgentMetadataOf, c5wTracker, jsTruthyAgent, jsTruthyStr]
  refine ⟨⟨h1, (spec_c5_amended cexCfg c5wState).1 (.sessionIdle (some "Z") 7) "A" h1⟩,
    ⟨h2, (spec_c5_amended cexCfg c5wState).2.1 _ 7 h2⟩,
    ⟨h3, h4, (spec_c5_amended cexCfg c5wState).2.2 7 "A" c5wSession h1 h3 h4⟩⟩

theorem partGate_counted_inv (st : PluginState) (ev : PartEvent) (sid d : String)
    (st1 : PluginState) (hg : partGate st ev = .counted sid d st1) :
    COUNTABLE_PART_TYPES ev.partType = true ∧ roleOf st ev = some Role.assistant := by
  unfold partGate at hg
  by_cases h1 : COUNTABLE_PART_TYPES ev.partType
  · refine ⟨h1, ?_⟩
    simp only [h1, Bool.not_true, Bool.false_eq_true, if_false] at hg
    split at hg <;> (try split at hg) <;> (try split at hg) <;> (try split at hg) <;>
        (try split at hg) <;>
      first
      | (rename_i hrole
         rw [Bool.not_eq_true'] at hrole
         have hb := Bool.eq_true_of_ne_false hrole
         rw [beq_iff_eq] at hb
         exact hb)
      | cases hg
  · rw [Bool.not_eq_true] at h1
    simp only [h1, Bool.not_false, if_true] at hg
    cases hg

/-- C6: a message.part.updated event whose part type is not countable
(text/reasoning), or whose message's cached role is not assistant,
records no tokens into any tracker (the session-tracker registry is
untouched, so neither aggregate nor per-stream trackers change) and
issues no display update. -/
theorem spec_c6_ignored_parts (cfg : PluginConfig) (st : PluginState) (ev : PartEvent) (now : ℚ)
    (h : COUNTABLE_PART_TYPES ev.partType = false ∨ roleOf st ev ≠ some Role.assistant) :
    (handleMessagePartUpdated cfg st ev now).1.sessionTrackers = st.sessionTrackers ∧
      (handleMessagePartUpdated cfg st ev now).2.recorded = none ∧
      ¬(handleMessagePartUpdated cfg st ev now).2.displayed := by
  unfold handleMessagePartUpdated
  cases hg : partGate st ev with
  | ignored st1 =>
      have hs := partGate_state_eq st ev
      rw [hg] at hs
      simp only [PartGate.state] at hs
      exact ⟨hs.1, rfl, not_false⟩
  | counted sid d st1 =>
      have hci := partGate_counted_inv st ev sid d st1 hg
      rcases h with h | h
      · rw [hci.1] at h; cases h
      · exact absurd hci.2 h

theorem cleanupStaleMessages_noop (st : PluginState) (now : ℚ)
    (h : now - st.lastCleanupTime < CLEANUP_INTERVAL_MS) :
    cleanupStaleMessages st now = st := by
  unfold cleanupStaleMessages
  rw [if_pos h]

theorem countTokensPath_recorded (cfg : PluginConfig) (st1 : PluginState) (ev : PartEvent)
    (sid d : String) (now : ℚ) :
    (countTokensPath cfg st1 ev sid d now).2.recorded = some (d, cfg.tok d) := by
  simp only [countTokensPath,
    apply_ite (fun x : PluginState × PartObs => x.2.recorded), ite_self]

theorem countTokensPath_partTextCache (cfg : PluginConfig) (st1 : PluginState)
    (ev : PartEvent) (sid d : String) (now : ℚ)
    (hcl : now - st1.lastCleanupTime < CLEANUP_INTERVAL_MS) :
    (countTokensPath cfg st1 ev sid d now).1.partTextCache = st1.partTextCache := by
  have haux := getOrCreateMessageTrackerState_aux cfg st1 sid ev.messageID ev.id
    ⟨ev.agent, ev.agentId, ev.agentType, ev.name⟩ now
  have hnoop : cleanupStaleMessages (getOrCreateMessageTrackerState cfg st1 sid
      ev.messageID ev.id ⟨ev.agent, ev.agentId, ev.agentType, ev.name⟩ now).2 now
      = (getOrCreateMessageTrackerState cfg st1 sid
        ev.messageID ev.id ⟨ev.agent, ev.agentId, ev.agentType, ev.name⟩ now).2 := by
    apply cleanupStaleMessages_noop
    rw [haux.2.2]
    exact hcl
  simp only [countTokensPath,
    apply_ite (fun x : PluginState × PartObs => x.1.partTextCache), ite_self, hnoop]
  exact haux.2.1

/-- The cache key `messageID:partID:partType` used by the text cache. -/
def c10cacheKey (ev : PartEvent) : String :=
  ev.messageID ++ ":" ++ optRender ev.id ++ ":" ++ ev.partType

/-- The previously cached full text for the part (empty when absent). -/
def c10prev (st : PluginState) (ev : PartEvent) : String :=
  (mapGet ((mapGet st.partTextCache (jsOrD ev.sessionID "default")).getD [])
    (c10cacheKey ev)).getD ""

/-- The delta the handler derives when no explicit delta arrives: the
suffix after the cached text when the new text extends it, otherwise the
whole new text. -/
def c10computed (st : PluginState) (ev : PartEvent) : String :=
  if ev.text.startsWith (c10prev st ev) then ev.text.drop (c10prev st ev).length
  else ev.text

/-- The state after the gate refreshes the part-text cache. -/
def c10stC (st : PluginState) (ev : PartEvent) : PluginState :=
  { st with
    partTextCache :=
      mapSet st.partTextCache (jsOrD ev.sessionID "default")
        (mapSet ((mapGet st.partTextCache (jsOrD ev.sessionID "default")).getD [])
          (c10cacheKey ev) ev.text) }

/-- C10: for a countable assistant part carrying no explicit delta but
non-empty full text, the counted delta is the suffix of the new text
beyond the cached text when the new text extends it, and the whole new
text otherwise (an empty suffix records nothing); in either case the
cache ends up holding the new full text.  The last hypothesis keeps the
independent stale-message sweep (which may scrub cache entries for
messages idle over five minutes) out of this call. -/
theorem spec_c10_delta_extension (cfg : PluginConfig) (st : PluginState) (ev : PartEvent) (now : ℚ)
    (hd : jsTruthyStr ev.delta = false)
    (ht : 0 < ev.text.length)
    (hc : COUNTABLE_PART_TYPES ev.partType = true)
    (hr : roleOf st ev = some Role.assistant)
    (hcl : now - st.lastCleanupTime < CLEANUP_INTERVAL_MS) :
    ((handleMessagePartUpdated cfg st ev now).2.recorded
        = if c10computed st ev = "" then none
          else some (c10computed st ev, cfg.tok (c10computed st ev))) ∧
      mapGet ((mapGet (handleMessagePartUpdated cfg st ev now).1.partTextCache
          (jsOrD ev.sessionID "default")).getD []) (c10cacheKey ev)
        = some ev.text := by
  have hrec : (!(jsTruthyStr ev.delta) && decide (0 < ev.text.length)) = true := by
    simp [hd, ht]
  by_cases hz : c10computed st ev = ""
  · have hgate : partGate st ev = .ignored (c10stC st ev) := by
      unfold partGate
      simp only [hc, Bool.not_true, Bool.false_eq_true, if_false, hrec, if_true]
      simp [c10stC, c10computed, c10prev, c10cacheKey, jsTruthyStr] at hz ⊢
      simp [hz]
    unfold handleMessagePartUpdated
    rw [hgate]
    refine ⟨by rw [if_pos hz], ?_⟩
    simp [c10stC, mapGet_mapSet_self]
  · have hgate : partGate st ev
        = .counted (jsOrD ev.sessionID "default") (c10computed st ev) (c10stC st ev) := by
      unfold partGate
      simp only [hc, Bool.not_true, Bool.false_eq_true, if_false, hrec, if_true]
      unfold roleOf at hr
      simp [c10stC, c10computed, c10prev, c10cacheKey, jsTruthyStr, hr] at hz ⊢
      simp [hz]
    unfold handleMessagePartUpdated
    rw [hgate]
    refine ⟨?_, ?_⟩
    · rw [countTokensPath_recorded, if_neg hz]
    · rw [countTokensPath_partTextCache]
      · simp [c10stC, mapGet_mapSet_self]
      · show now - (c10stC st ev).lastCleanupTime < CLEANUP_INTERVAL_MS
        simp [c10stC]
        exact hcl

def c6wEvent : PartEvent :=
  ⟨"tool", some "A", "m1", some "p1", "x", some "x", none, none, none, none⟩

/-- Witness for C6: a tool part on a fresh plugin is fully ignored. -/
theorem spec_c6_ignored_parts_witness :
    (COUNTABLE_PART_TYPES c6wEvent.partType = false ∨
        roleOf initialPluginState c6wEvent ≠ some Role.assistant) ∧
      ((handleMessagePartUpdated cexCfg initialPluginState c6wEvent 0).1.sessionTrackers
          = initialPluginState.sessionTrackers ∧
        (handleMessagePartUpdated cexCfg initialPluginState c6wEvent 0).2.recorded = none ∧
        ¬(handleMessagePartUpdated cexCfg initialPluginState c6wEvent 0).2.displayed) :=
  ⟨Or.inl (by simp [COUNTABLE_PART_TYPES, c6wEvent]),
    spec_c6_ignored_parts cexCfg initialPluginState c6wEvent 0
      (Or.inl (by simp [COUNTABLE_PART_TYPES, c6wEvent]))⟩

def c10wState : PluginState :=
  { initialPluginState with messageRoleCache := [("A", [("m1", Role.assistant)])] }

def c10wEvent : PartEvent :=
  ⟨"text", some "A", "m1", some "p1", "hello", none, none, none, none, none⟩

/-- Witness for C10: first chunk "hello" arriving with no delta against
an empty cache on a session whose message role is assistant. -/
theorem spec_c10_delta_extension_witness :
    (jsTruthyStr c10wEvent.delta = false ∧
        0 < c10wEvent.text.length ∧
        COUNTABLE_PART_TYPES c10wEvent.partType = true ∧
        roleOf c10wState c10wEvent = some Role.assistant ∧
        (5 : ℚ) - c10wState.lastCleanupTime < CLEANUP_INTERVAL_MS) ∧
      ((handleMessagePartUpdated cexCfg c10wState c10wEvent 5).2.recorded
          = if c10computed c10wState c10wEvent = "" then none
            else some (c10computed c10wState c10wEvent,
              cexCfg.tok (c10computed c10wState c10wEvent))) ∧
        mapGet ((mapGet (handleMessagePartUpdated cexCfg c10wState c10wEvent 5).1.partTextCache
            (jsOrD c10wEvent.sessionID "default")).getD []) (c10cacheKey c10wEvent)
          = some c10wEvent.text := by
  have hd : jsTruthyStr c10wEvent.delta = false := rfl
  have ht : 0 < c10wEvent.text.length := by decide
  have hc : COUNTABLE_PART_TYPES c10wEvent.partType = true := by
    simp [COUNTABLE_PART_TYPES, c10wEvent]
  have hr : roleOf c10wState c10wEvent = some Role.assistant := by
    simp [roleOf, c10wState, c10wEvent, mapGet, jsOrD, jsTruthyStr, initialPluginState]
  have hcl : (5 : ℚ) - c10wState.lastCleanupTime < CLEANUP_INTERVAL_MS := by
    show (5 : ℚ) - 0 < CLEANUP_INTERVAL_MS
    norm_num [CLEANUP_INTERVAL_MS]
  exact ⟨⟨hd, ht, hc, hr, hcl⟩,
    spec_c10_delta_extension cexCfg c10wState c10wEvent 5 hd ht hc hr hcl⟩
